import Mathlib

/-!
Shallow embedding of the MCP weather client (`mcp_client.py`): the SSE
event-stream listener, the JSON-RPC tool-call gateway `_call_tool`, the
typed wrappers, and the singleton accessor `get_mcp_client`.

Time is abstracted discretely: a polling loop's input list holds exactly
the queue entries that become available before its timeout budget
elapses, in arrival order.  Network effects are inputs: the outcome of
the HTTP POST is a parameter, and the SSE stream is a list of lines.
-/

/-- JSON values, the common carrier of `json.loads` results and of the
Python dict/list literals the client builds. -/
inductive Json where
  | null
  | bool (b : Bool)
  | num (n : Int)
  | str (s : String)
  | arr (xs : List Json)
  | obj (kvs : List (String × Json))

/-- JSON insignificant whitespace. -/
def jsonWs (c : Char) : Bool :=
  c == ' ' || c == '\t' || c == '\n' || c == '\r'

def skipWs (cs : List Char) : List Char :=
  cs.dropWhile jsonWs

def digitVal (c : Char) : Nat := c.toNat - '0'.toNat

/-- Consume a run of digits, accumulating their value. -/
def takeDigits (acc : Nat) : List Char → Nat × List Char
  | [] => (acc, [])
  | c :: rest =>
    if c.isDigit then takeDigits (acc * 10 + digitVal c) rest
    else (acc, c :: rest)

/-- JSON integer grammar: a single 0, or a nonzero digit followed by digits. -/
def parseNat : List Char → Option (Nat × List Char)
  | [] => none
  | c :: rest =>
    if c == '0' then some (0, rest)
    else if c.isDigit then some (takeDigits (digitVal c) rest)
    else none

/-- Consume the expected remaining characters of a keyword, yielding
what follows it. -/
def stripWord (want : List Char) (cs : List Char) : Option (List Char) :=
  match want, cs with
  | [], remainder => some remainder
  | x :: xs, y :: ys => if y == x then stripWord xs ys else none
  | _ :: _, [] => none

/-- The two-character string escapes of the JSON grammar and their
meanings (the \u form is outside the modelled subset). -/
def escPairs : List (Char × Char) :=
  [('"', '"'), ('\\', '\\'), ('/', '/'), ('n', '\n'), ('t', '\t'),
   ('r', '\r'), ('b', Char.ofNat 8), ('f', Char.ofNat 12)]

/-- Meaning of one escape character, if it is a known escape. -/
def escChar (c : Char) : Option Char :=
  (escPairs.find? (fun q => q.1 == c)).map (fun q => q.2)

/-- Body of a JSON string after the opening quote: returns the decoded
characters and the input after the closing quote. -/
def parseStrChars : List Char → Option (List Char × List Char)
  | [] => none
  | '\\' :: e :: rest =>
    match escChar e with
    | some c => (parseStrChars rest).map (fun p => (c :: p.1, p.2))
    | none => none
  | c :: rest =>
    if c == '"' then some ([], rest)
    else if c.toNat < 32 then none
    else (parseStrChars rest).map (fun p => (c :: p.1, p.2))

def lbrace : Char := Char.ofNat 123

def rbrace : Char := Char.ofNat 125

/-- Insert a key into an object, Python-dict style: an existing key keeps
its position and gets the new value, a new key is appended. -/
def objSet (kvs : List (String × Json)) (k : String) (v : Json) : List (String × Json) :=
  match kvs with
  | [] => [(k, v)]
  | (k', v') :: rest => if k' == k then (k', v) :: rest else (k', v') :: objSet rest k v

/-- Parser mode: a single value, the remaining elements of an array, or
the remaining members of an object. -/
inductive PMode where
  | val
  | elems (acc : List Json)
  | members (acc : List (String × Json))

/-- Fuel-driven recursive-descent JSON parser (integer-only number
subset, common escapes).  Fuel is structural so the kernel can run it. -/
def parseStep : Nat → PMode → List Char → Option (Json × List Char)
  | 0, _, _ => none
  | f + 1, .val, cs =>
    match skipWs cs with
    | [] => none
    | c :: rest =>
      if c == 'n' then (stripWord ['u', 'l', 'l'] rest).map (fun r => (Json.null, r))
      else if c == 't' then (stripWord ['r', 'u', 'e'] rest).map (fun r => (Json.bool true, r))
      else if c == 'f' then (stripWord ['a', 'l', 's', 'e'] rest).map (fun r => (Json.bool false, r))
      else if c == '"' then (parseStrChars rest).map (fun p => (Json.str (String.mk p.1), p.2))
      else if c == '[' then
        match skipWs rest with
        | ']' :: r2 => some (Json.arr [], r2)
        | _ => parseStep f (.elems []) rest
      else if c == '-' then
        match parseNat rest with
        | some (n, r) => some (Json.num (-(n : Int)), r)
        | none => none
      else if c == lbrace then
        match skipWs rest with
        | [] => none
        | c2 :: r2 =>
          if c2 == rbrace then some (Json.obj [], r2)
          else parseStep f (.members []) rest
      else if c.isDigit then
        match parseNat (c :: rest) with
        | some (n, r) => some (Json.num (n : Int), r)
        | none => none
      else none
  | f + 1, .elems acc, cs =>
    match parseStep f .val cs with
    | none => none
    | some (v, r1) =>
      match skipWs r1 with
      | ',' :: r2 => parseStep f (.elems (acc ++ [v])) r2
      | ']' :: r2 => some (Json.arr (acc ++ [v]), r2)
      | _ => none
  | f + 1, .members acc, cs =>
    match skipWs cs with
    | '"' :: rest =>
      (match parseStrChars rest with
       | none => none
       | some (ks, r1) =>
         match skipWs r1 with
         | ':' :: r2 =>
           (match parseStep f .val r2 with
            | none => none
            | some (v, r3) =>
              let acc' := objSet acc (String.mk ks) v
              match skipWs r3 with
              | ',' :: r4 => parseStep f (.members acc') r4
              | c :: r4 => if c == rbrace then some (Json.obj acc', r4) else none
              | [] => none)
         | _ => none)
    | _ => none

/-- `json.loads` on a character list: parse one value, require only
whitespace after it. -/
def Json.parseChars (cs : List Char) : Option Json :=
  match parseStep (cs.length + 2) .val cs with
  | some (v, rest) => if (skipWs rest).isEmpty then some v else none
  | none => none

/-- `json.loads` on a string. -/
def Json.parse (s : String) : Option Json :=
  Json.parseChars s.toList

/-- Python exceptions that the embedded operations can raise. -/
inductive PyErr where
  | attributeError
  | typeError
  | keyError
  | indexError
  | valueError
deriving DecidableEq

/-- The text `str(e)` contributes to the catch-all error message. -/
def pyErrMsg : PyErr → String
  | .attributeError => "AttributeError"
  | .typeError => "TypeError"
  | .keyError => "KeyError"
  | .indexError => "IndexError"
  | .valueError => "ValueError"

/-- First-occurrence lookup in an object's key/value list (keys are
unique by construction of `objSet`). -/
def objLookup (kvs : List (String × Json)) (k : String) : Option Json :=
  match kvs with
  | [] => none
  | (k', v) :: rest => if k' == k then some v else objLookup rest k

/-- Python `d.get(k, default)`: only dicts have `.get`; anything else
raises AttributeError. -/
def pyGetD (j : Json) (k : String) (dflt : Json) : Except PyErr Json :=
  match j with
  | .obj kvs => .ok ((objLookup kvs k).getD dflt)
  | _ => .error .attributeError

/-- Python `j[k]` with a string key: KeyError on a dict missing the key,
TypeError on any non-dict. -/
def pyIndexKey (j : Json) (k : String) : Except PyErr Json :=
  match j with
  | .obj kvs =>
    match objLookup kvs k with
    | some v => .ok v
    | none => .error .keyError
  | _ => .error .typeError

/-- Python `j[i]` with an integer index. -/
def pyIndexNat (j : Json) (i : Nat) : Except PyErr Json :=
  match j with
  | .arr xs =>
    (match xs.get? i with
     | some v => .ok v
     | none => .error .indexError)
  | .str s =>
    (match s.toList.get? i with
     | some c => .ok (.str (String.mk [c]))
     | none => .error .indexError)
  | .obj _ => .error .keyError
  | _ => .error .typeError

/-- Python `len(j)`. -/
def pyLen (j : Json) : Except PyErr Nat :=
  match j with
  | .str s => .ok s.length
  | .arr xs => .ok xs.length
  | .obj kvs => .ok kvs.length
  | _ => .error .typeError

/-- Python `j == s` for a string literal `s`: equal only when `j` is that
string (cross-type equality is False). -/
def isStrEq (j : Json) (s : String) : Bool :=
  match j with
  | .str t => t == s
  | _ => false

/-- Python `j == n` for an int literal `n`. -/
def isNumEq (j : Json) (n : Int) : Bool :=
  match j with
  | .num m => m == n
  | _ => false

/-- Python `line.startswith(marker)`: every character of `want` opens
`given`, in order. -/
def leadsWith : List Char → List Char → Bool
  | [], _ => true
  | _ :: _, [] => false
  | w :: ws, g :: gs => if w == g then leadsWith ws gs else false

/-- Substring test for Python `sub in s` on strings. -/
def strHasInfix (needle : List Char) : List Char → Bool
  | [] => needle.isEmpty
  | c :: rest => leadsWith needle (c :: rest) || strHasInfix needle rest

/-- Python `k in j` for a string literal `k`: key test on dicts, element
equality on lists, substring test on strings, TypeError otherwise. -/
def pyContainsKey (j : Json) (k : String) : Except PyErr Bool :=
  match j with
  | .obj kvs => .ok (kvs.any (fun kv => kv.1 == k))
  | .arr xs => .ok (xs.any (fun x => isStrEq x k))
  | .str s => .ok (strHasInfix k.toList s.toList)
  | _ => .error .typeError

/-- `json.loads` demands a string argument; other values raise TypeError. -/
def asStr (j : Json) : Except PyErr String :=
  match j with
  | .str s => .ok s
  | _ => .error .typeError

/-- Python truthiness of a JSON value. -/
def pyTruthy (j : Json) : Bool :=
  match j with
  | .null => false
  | .bool b => b
  | .num n => n != 0
  | .str s => s != ""
  | .arr xs => !xs.isEmpty
  | .obj kvs => !kvs.isEmpty

def Json.isObj (j : Json) : Bool :=
  match j with
  | .obj _ => true
  | _ => false

/-- The uniform failure mapping built throughout `_call_tool`. -/
def errResult (msg : String) : Json :=
  .obj [("success", .bool false), ("error", .str msg)]

/-- The failure mapping whose error slot is an arbitrary JSON value
(`mcp_response["error"].get("message", ...)` need not be a string). -/
def errResultV (v : Json) : Json :=
  .obj [("success", .bool false), ("error", v)]

/-- The `error` field of a result mapping, if any. -/
def errorField (j : Json) : Option Json :=
  match j with
  | .obj kvs => objLookup kvs "error"
  | _ => none

/-- The JSON-RPC `tools/call` request `_call_tool` posts. -/
def mkMcpRequest (rid toolName : String) (arguments : Json) : Json :=
  .obj [("jsonrpc", .str "2.0"), ("id", .str rid), ("method", .str "tools/call"),
        ("params", .obj [("name", .str toolName), ("arguments", arguments)])]

/-- The short-circuit test `"content" in result and
len(result["content"]) > 0` of line 228. -/
def checkContent (result : Json) : Except PyErr Bool :=
  match pyContainsKey result "content" with
  | .error ex => .error ex
  | .ok false => .ok false
  | .ok true =>
    match pyIndexKey result "content" with
    | .error ex => .error ex
    | .ok content =>
      match pyLen content with
      | .error ex => .error ex
      | .ok n => .ok (decide (0 < n))

/-- Lines 229-237: take `result["content"][0]`, demand type `"text"`,
decode its `text` field as JSON. -/
def decodeContent (result : Json) : Except PyErr Json :=
  match pyIndexKey result "content" with
  | .error ex => .error ex
  | .ok content =>
    match pyIndexNat content 0 with
    | .error ex => .error ex
    | .ok item =>
      match pyGetD item "type" .null with
      | .error ex => .error ex
      | .ok ty =>
        if isStrEq ty "text" then
          match pyGetD item "text" (.str "\x7b\x7d") with
          | .error ex => .error ex
          | .ok txt =>
            match asStr txt with
            | .error ex => .error ex
            | .ok s =>
              match Json.parse s with
              | some v => .ok v
              | none => .error .valueError
        else .ok (errResult "无法解析MCP响应")

/-- Lines 218-237: the body run once the dequeued entry's id matched. -/
def handleMatch (e : Json) : Except PyErr Json :=
  match pyContainsKey e "error" with
  | .error ex => .error ex
  | .ok true =>
    match pyIndexKey e "error" with
    | .error ex => .error ex
    | .ok errv =>
      match pyGetD errv "message" (.str "未知错误") with
      | .error ex => .error ex
      | .ok msg => .ok (errResultV msg)
  | .ok false =>
    match pyGetD e "result" (.obj []) with
    | .error ex => .error ex
    | .ok result =>
      match checkContent result with
      | .error ex => .error ex
      | .ok true => decodeContent result
      | .ok false => .ok (errResult "无法解析MCP响应")

/-- Processing of one dequeued entry inside the poll loop of
`_call_tool` (`mcp_client.py` lines 213-237): `some r` ends the call
with value `r`, `none` continues polling, a raised `PyErr` is what the
enclosing `except` clause catches. -/
def processEntry (rid : String) (e : Json) : Except PyErr (Option Json) :=
  match pyGetD e "id" .null with
  | .error ex => .error ex
  | .ok idv =>
    if isStrEq idv rid then
      match handleMatch e with
      | .error ex => .error ex
      | .ok r => .ok (some r)
    else .ok none

/-- The poll loop of `_call_tool` (lines 208-244): dequeues entries in
arrival order; the input list holds exactly the entries available before
the 30-unit timeout.  Returns the call's value and the entries left in
the queue; an exhausted list is the timeout path, and a raised exception
is converted by the enclosing catch-all `except`. -/
def pollLoop (rid : String) : List Json → Json × List Json
  | [] => (errResult "等待MCP响应超时", [])
  | e :: rest =>
    match processEntry rid e with
    | .error ex => (errResult ("MCP调用失败: " ++ pyErrMsg ex), rest)
    | .ok (some r) => (r, rest)
    | .ok none => pollLoop rid rest

/-- Environment's answer to the HTTP POST of the request. -/
inductive PostOutcome where
  | resp (status : Nat) (body : String)
  | timeout
  | connError

/-- Full observable outcome of one `_call_tool` run: the returned value,
the request actually posted (`none` when no network attempt was made),
and the entries remaining in the correlation queue. -/
structure CallOutcome where
  result : Json
  request : Option Json
  leftover : List Json

/-- `MCPWeatherClient._call_tool` (lines 156-260).  `queue` holds the
entries that become available before the 30-unit poll timeout. -/
def call_tool_full (server_url toolName : String) (arguments : Json)
    (endpoint : Option String) (rid : String) (post : PostOutcome)
    (queue : List Json) : CallOutcome :=
  match endpoint with
  | none => ⟨errResult "MCP 连接未建立", none, queue⟩
  | some _ =>
    let req := mkMcpRequest rid toolName arguments
    match post with
    | .timeout => ⟨errResult "MCP服务器请求超时", some req, queue⟩
    | .connError => ⟨errResult ("无法连接到MCP服务器: " ++ server_url), some req, queue⟩
    | .resp status body =>
      if status != 200 && status != 202 then
        ⟨errResult ("MCP服务器返回错误: " ++ Nat.repr status ++ " - " ++ body), some req, queue⟩
      else
        let pr := pollLoop rid queue
        ⟨pr.1, some req, pr.2⟩

/-- The value `_call_tool` returns. -/
def call_tool (server_url toolName : String) (arguments : Json)
    (endpoint : Option String) (rid : String) (post : PostOutcome)
    (queue : List Json) : Json :=
  (call_tool_full server_url toolName arguments endpoint rid post queue).result

/-- Lines 278-281: the wrapper's logging branch on
`result.get("success")`, which itself raises when `result` is not a
mapping; the result is then returned unchanged. -/
def wrapCurrent (result : Json) : Except PyErr Json :=
  match pyGetD result "success" .null with
  | .error ex => .error ex
  | .ok s =>
    if pyTruthy s then .ok result
    else
      match pyGetD result "error" .null with
      | .error ex => .error ex
      | .ok _ => .ok result

/-- Lines 301-304: the forecast wrapper's logging branch, which also
reads `result.get("days", 0)` on success. -/
def wrapForecast (result : Json) : Except PyErr Json :=
  match pyGetD result "success" .null with
  | .error ex => .error ex
  | .ok s =>
    if pyTruthy s then
      match pyGetD result "days" (.num 0) with
      | .error ex => .error ex
      | .ok _ => .ok result
    else
      match pyGetD result "error" .null with
      | .error ex => .error ex
      | .ok _ => .ok result

/-- `MCPWeatherClient.query_current_weather` (lines 262-283): calls the
gateway, then branches on `result.get("success")` for logging — a step
that itself can raise when the result is not a mapping. -/
def query_current_weather (server_url : String) (endpoint : Option String)
    (rid city : String) (post : PostOutcome) (queue : List Json) :
    Except PyErr Json :=
  wrapCurrent (call_tool server_url "query_current_weather"
    (.obj [("city", .str city)]) endpoint rid post queue)

/-- `MCPWeatherClient.query_weather_forecast` (lines 285-306). -/
def query_weather_forecast (server_url : String) (endpoint : Option String)
    (rid city : String) (post : PostOutcome) (queue : List Json) :
    Except PyErr Json :=
  wrapForecast (call_tool server_url "query_weather_forecast"
    (.obj [("city", .str city)]) endpoint rid post queue)

/-- The characters of the `event: ` line marker. -/
def eventHdr : List Char := ['e', 'v', 'e', 'n', 't', ':', ' ']

/-- The characters of the `data: ` line marker. -/
def dataHdr : List Char := ['d', 'a', 't', 'a', ':', ' ']

/-- The `endpoint` event name. -/
def endpointName : List Char := ['e', 'n', 'd', 'p', 'o', 'i', 'n', 't']

/-- The `message` event name. -/
def messageName : List Char := ['m', 'e', 's', 's', 'a', 'g', 'e']

/-- The whitespace set of Python `str.strip()`. -/
def pyIsSpace (c : Char) : Bool :=
  c == ' ' || c == '\t' || c == '\n' || c == '\r' || c == Char.ofNat 11 || c == Char.ofNat 12

/-- Python `str.strip()`. -/
def trimChars (cs : List Char) : List Char :=
  ((cs.dropWhile pyIsSpace).reverse.dropWhile pyIsSpace).reverse

/-- State of the SSE listener thread (`sse_listener`, lines 34-74):
the pending event name, the session's message endpoint, and the
correlation queue in arrival order. -/
structure ListenerState where
  currentEvent : Option (List Char)
  endpoint : Option String
  queue : List Json

def initListener : ListenerState := ⟨none, none, []⟩

/-- One iteration of the `for line in response.iter_lines()` loop of
`sse_listener` (lines 49-71), applied to a non-blank or blank line. -/
def processLine (st : ListenerState) (line : List Char) : ListenerState :=
  if line.isEmpty then st
  else if leadsWith eventHdr line then
    { st with currentEvent := some (trimChars (line.drop 7)) }
  else if leadsWith dataHdr line then
    let ds := line.drop 6
    let st' :=
      match st.currentEvent with
      | some ev =>
        if ev = endpointName then { st with endpoint := some (String.mk ds) }
        else if ev = messageName then
          match Json.parseChars ds with
          | some j => { st with queue := st.queue ++ [j] }
          | none => st
        else st
      | none => st
    { st' with currentEvent := none }
  else st

def runListenerFrom (st : ListenerState) (lines : List (List Char)) : ListenerState :=
  lines.foldl processLine st

/-- The listener run over a delivered line sequence from its initial state. -/
def runListener (lines : List (List Char)) : ListenerState :=
  runListenerFrom initListener lines

/-- Python `url.rstrip('/')`. -/
def rstripSlash (s : String) : String :=
  String.mk ((s.toList.reverse.dropWhile (fun c => c == '/')).reverse)

/-- Queue consumption by `_initialize_mcp`'s poll loop (lines 129-147):
entries are dequeued until one whose `id` equals the int `1` is found;
a dequeued non-dict entry raises, which the surrounding `except`
swallows, ending consumption. -/
def consumeInit : List Json → List Json
  | [] => []
  | e :: rest =>
    match e with
    | .obj kvs =>
      if isNumEq ((objLookup kvs "id").getD .null) 1 then rest else consumeInit rest
    | _ => rest

/-- Observable state of a constructed `MCPWeatherClient`. -/
structure MCPWeatherClient where
  server_url : String
  message_endpoint : Option String
  response_queue : List Json

/-- `MCPWeatherClient.__init__` (lines 17-30) with its bootstrap:
strip trailing slashes, run the listener over the delivered stream
lines, and, when an endpoint was discovered and the `initialize` POST
was accepted, let `_initialize_mcp` drain the queue up to the id-1
response. -/
def mkClient (url : String) (sseLines : List (List Char)) (initPost : PostOutcome) :
    MCPWeatherClient :=
  let st := runListener sseLines
  let q :=
    match st.endpoint with
    | none => st.queue
    | some _ =>
      match initPost with
      | .resp status _ =>
        if status == 200 || status == 202 then consumeInit st.queue else st.queue
      | _ => st.queue
  { server_url := rstripSlash url, message_endpoint := st.endpoint, response_queue := q }

/-- `get_mcp_client` (lines 313-329): the module-global `_mcp_client` is
threaded explicitly; the pair is (returned client, global after the call). -/
def get_mcp_client (g : Option MCPWeatherClient) (url : String)
    (sseLines : List (List Char)) (initPost : PostOutcome) :
    MCPWeatherClient × Option MCPWeatherClient :=
  match g with
  | none => (mkClient url sseLines initPost, some (mkClient url sseLines initPost))
  | some c => (c, some c)

/-- Claim-side predicate: the entry is a JSON object whose `id` slot
differs from the poller's identifier, so the poll loop dequeues it and
moves on without raising. -/
def nonMatchingObj (rid : String) (e : Json) : Bool :=
  match e with
  | .obj kvs => !(isStrEq ((objLookup kvs "id").getD .null) rid)
  | _ => false

/-- The canonical FastMCP success envelope: a JSON-RPC result whose
`content[0]` is a `text` item carrying the JSON-encoded payload `s`. -/
def mkToolResponse (rid s : String) : Json :=
  .obj [("jsonrpc", .str "2.0"), ("id", .str rid),
        ("result", .obj [("content",
          .arr [.obj [("type", .str "text"), ("text", .str s)]])])]

/-- A JSON-RPC response carrying an arbitrary `result` value. -/
def mkResultResponse (rid : String) (res : Json) : Json :=
  .obj [("jsonrpc", .str "2.0"), ("id", .str rid), ("result", res)]

/-- Claim-side predicate (C9): a result mapping with no `content` key,
an empty `content` list, or a first content item that is a mapping whose
`type` is not `"text"`. -/
def unparseableResult (res : Json) : Bool :=
  match res with
  | .obj kvs =>
    (match objLookup kvs "content" with
     | none => true
     | some (.arr []) => true
     | some (.arr (item :: _)) =>
       (match item with
        | .obj ikvs => !(isStrEq ((objLookup ikvs "type").getD .null) "text")
        | _ => false)
     | some _ => false)
  | _ => false

/-- Amended-claim helper (C3): the payload of the last `endpoint`-event
frame of a line sequence, given the pending event name, following the
same `event: `/`data: ` framing as the listener. -/
def lastEndpointPayload : Option (List Char) → List (List Char) → Option String
  | _, [] => none
  | cur, line :: rest =>
    if line.isEmpty then lastEndpointPayload cur rest
    else if leadsWith eventHdr line then
      lastEndpointPayload (some (trimChars (line.drop 7))) rest
    else if leadsWith dataHdr line then
      (match lastEndpointPayload none rest with
       | some p => some p
       | none =>
         match cur with
         | some ev => if ev = endpointName then some (String.mk (line.drop 6)) else none
         | none => none)
    else lastEndpointPayload cur rest

theorem processEntry_nonMatching {rid : String} {e : Json}
    (h : nonMatchingObj rid e = true) : processEntry rid e = .ok none := by
  cases e with
  | obj kvs =>
    have h' : isStrEq ((objLookup kvs "id").getD .null) rid = false := by
      simpa [nonMatchingObj] using h
    simp [processEntry, pyGetD, h']
  | null => simp [nonMatchingObj] at h
  | bool b => simp [nonMatchingObj] at h
  | num n => simp [nonMatchingObj] at h
  | str s => simp [nonMatchingObj] at h
  | arr xs => simp [nonMatchingObj] at h

theorem pollLoop_skip {rid : String} {pre : List Json}
    (h : ∀ e ∈ pre, nonMatchingObj rid e = true) (q : List Json) :
    pollLoop rid (pre ++ q) = pollLoop rid q := by
  induction pre with
  | nil => rfl
  | cons e rest ih =>
    have he : nonMatchingObj rid e = true := h e (List.mem_cons_self e rest)
    have hr : ∀ x ∈ rest, nonMatchingObj rid x = true :=
      fun x hx => h x (List.mem_cons_of_mem _ hx)
    simp [pollLoop, processEntry_nonMatching he, ih hr]

theorem processEntry_toolResponse {rid s : String} {v : Json}
    (hs : Json.parse s = some v) :
    processEntry rid (mkToolResponse rid s) = .ok (some v) := by
  simp [processEntry, mkToolResponse, pyGetD, objLookup, isStrEq, handleMatch,
        pyContainsKey, checkContent, decodeContent, pyIndexKey, pyIndexNat,
        pyLen, asStr, hs]

theorem pollLoop_toolResponse {rid s : String} {v : Json}
    (hs : Json.parse s = some v) (pre rest : List Json)
    (h : ∀ e ∈ pre, nonMatchingObj rid e = true) :
    pollLoop rid (pre ++ mkToolResponse rid s :: rest) = (v, rest) := by
  rw [pollLoop_skip h]
  simp [pollLoop, processEntry_toolResponse hs]

theorem objLookup_any (kvs : List (String × Json)) (k : String) :
    kvs.any (fun kv => kv.1 == k) = (objLookup kvs k).isSome := by
  induction kvs with
  | nil => rfl
  | cons kv rest ih =>
    obtain ⟨k', v⟩ := kv
    by_cases h : (k' == k) = true
    · simp [objLookup, h]
    · simp only [Bool.not_eq_true] at h
      simp [objLookup, h, ih]

theorem msg_ne_end : ¬(messageName = endpointName) := by decide

theorem lep_skip {line : List Char} (cur : Option (List Char)) (rest : List (List Char))
    (h : (line.isEmpty = true) ∨
      (¬leadsWith eventHdr line = true ∧ ¬leadsWith dataHdr line = true)) :
    lastEndpointPayload cur (line :: rest) = lastEndpointPayload cur rest := by
  rcases h with h1 | ⟨h2, h3⟩
  · simp [lastEndpointPayload, h1]
  · by_cases h1 : line.isEmpty = true
    · simp [lastEndpointPayload, h1]
    · simp [lastEndpointPayload, h1, h2, h3]

theorem lep_event {line : List Char} (cur : Option (List Char)) (rest : List (List Char))
    (h1 : ¬line.isEmpty = true) (h2 : leadsWith eventHdr line = true) :
    lastEndpointPayload cur (line :: rest) =
      lastEndpointPayload (some (trimChars (line.drop 7))) rest := by
  simp [lastEndpointPayload, h1, h2]

theorem lep_data {line : List Char} (cur : Option (List Char)) (rest : List (List Char))
    (h1 : ¬line.isEmpty = true) (h2 : ¬leadsWith eventHdr line = true)
    (h3 : leadsWith dataHdr line = true) :
    lastEndpointPayload cur (line :: rest) =
      (match lastEndpointPayload none rest with
       | some p => some p
       | none =>
         match cur with
         | some ev => if ev = endpointName then some (String.mk (line.drop 6)) else none
         | none => none) := by
  simp [lastEndpointPayload, h1, h2, h3]

theorem processLine_queue (cur : Option (List Char)) (ep : Option String)
    (q : List Json) (line : List Char) :
    (processLine ⟨cur, ep, q⟩ line).queue = q ∨
      ∃ j, Json.parseChars (line.drop 6) = some j ∧
        (processLine ⟨cur, ep, q⟩ line).queue = q ++ [j] := by
  unfold processLine
  by_cases h1 : line.isEmpty = true
  · simp [h1]
  · simp only [h1]
    by_cases h2 : leadsWith eventHdr line = true
    · simp [h2]
    · simp only [h2]
      by_cases h3 : leadsWith dataHdr line = true
      · simp only [h3]
        cases cur with
        | none => simp
        | some ev =>
          by_cases he : ev = endpointName
          · simp [he]
          · by_cases hm : ev = messageName
            · cases hp : Json.parseChars (line.drop 6) with
              | none => simp [he, hm, hp, msg_ne_end]
              | some j =>
                refine Or.inr ⟨j, rfl, ?_⟩
                simp [he, hm, msg_ne_end]
            · simp [he, hm]
      · simp [h3]

theorem runListenerFrom_endpoint (lines : List (List Char)) (cur : Option (List Char))
    (ep : Option String) (q : List Json) :
    (runListenerFrom ⟨cur, ep, q⟩ lines).endpoint =
      (match lastEndpointPayload cur lines with
       | some p => some p
       | none => ep) := by
  induction lines generalizing cur ep q with
  | nil => rfl
  | cons line rest ih =>
    show (runListenerFrom (processLine ⟨cur, ep, q⟩ line) rest).endpoint = _
    by_cases h1 : line.isEmpty = true
    · rw [show processLine ⟨cur, ep, q⟩ line = ⟨cur, ep, q⟩ by simp [processLine, h1]]
      rw [ih, lep_skip cur rest (Or.inl h1)]
    · by_cases h2 : leadsWith eventHdr line = true
      · rw [show processLine ⟨cur, ep, q⟩ line =
            ⟨some (trimChars (line.drop 7)), ep, q⟩ by simp [processLine, h1, h2]]
        rw [ih, lep_event cur rest h1 h2]
      · by_cases h3 : leadsWith dataHdr line = true
        · rw [lep_data cur rest h1 h2 h3]
          cases cur with
          | none =>
            rw [show processLine ⟨none, ep, q⟩ line = ⟨none, ep, q⟩ by
              simp [processLine, h1, h2, h3]]
            rw [ih]
            cases hlast : lastEndpointPayload none rest <;> simp
          | some ev =>
            by_cases he : ev = endpointName
            · rw [show processLine ⟨some ev, ep, q⟩ line =
                  ⟨none, some (String.mk (line.drop 6)), q⟩ by
                simp [processLine, h1, h2, h3, he]]
              rw [ih]
              cases hlast : lastEndpointPayload none rest <;> simp [he]
            · by_cases hm : ev = messageName
              · cases hp : Json.parseChars (line.drop 6) with
                | none =>
                  rw [show processLine ⟨some ev, ep, q⟩ line = ⟨none, ep, q⟩ by
                    simp [processLine, h1, h2, h3, he, hm, hp, msg_ne_end]]
                  rw [ih]
                  cases hlast : lastEndpointPayload none rest <;> simp [he]
                | some j =>
                  rw [show processLine ⟨some ev, ep, q⟩ line = ⟨none, ep, q ++ [j]⟩ by
                    simp [processLine, h1, h2, h3, he, hm, hp, msg_ne_end]]
                  rw [ih]
                  cases hlast : lastEndpointPayload none rest <;> simp [he]
              · rw [show processLine ⟨some ev, ep, q⟩ line = ⟨none, ep, q⟩ by
                  simp [processLine, h1, h2, h3, he, hm]]
                rw [ih]
                cases hlast : lastEndpointPayload none rest <;> simp [he]
        · rw [show processLine ⟨cur, ep, q⟩ line = ⟨cur, ep, q⟩ by
            simp [processLine, h1, h2, h3]]
          rw [ih, lep_skip cur rest (Or.inr ⟨h2, h3⟩)]

theorem runListenerFrom_queue_parsed (lines : List (List Char)) (st : ListenerState)
    (h : ∀ j ∈ st.queue, ∃ cs, Json.parseChars cs = some j) :
    ∀ j ∈ (runListenerFrom st lines).queue, ∃ cs, Json.parseChars cs = some j := by
  induction lines generalizing st with
  | nil => exact h
  | cons line rest ih =>
    refine ih (processLine st line) ?_
    obtain ⟨cur, ep, q⟩ := st
    rcases processLine_queue cur ep q line with hq | ⟨j', hj', hq⟩
    · intro j hj
      rw [hq] at hj
      exact h j hj
    · intro j hj
      rw [hq] at hj
      rcases List.mem_append.mp hj with hmem | hmem
      · exact h j hmem
      · have hj'' : j = j' := by simpa using hmem
        subst hj''
        exact ⟨line.drop 6, hj'⟩

theorem wrapCurrent_ok {r : Json} (h : r.isObj = true) : wrapCurrent r = .ok r := by
  cases r with
  | obj kvs =>
    by_cases ht : pyTruthy ((objLookup kvs "success").getD .null) = true
    · simp [wrapCurrent, pyGetD, ht]
    · simp [wrapCurrent, pyGetD, ht]
  | null => simp [Json.isObj] at h
  | bool b => simp [Json.isObj] at h
  | num n => simp [Json.isObj] at h
  | str s => simp [Json.isObj] at h
  | arr xs => simp [Json.isObj] at h

theorem wrapForecast_ok {r : Json} (h : r.isObj = true) : wrapForecast r = .ok r := by
  cases r with
  | obj kvs =>
    by_cases ht : pyTruthy ((objLookup kvs "success").getD .null) = true
    · simp [wrapForecast, pyGetD, ht]
    · simp [wrapForecast, pyGetD, ht]
  | null => simp [Json.isObj] at h
  | bool b => simp [Json.isObj] at h
  | num n => simp [Json.isObj] at h
  | str s => simp [Json.isObj] at h
  | arr xs => simp [Json.isObj] at h

theorem processEntry_unparseable {rid : String} {res : Json}
    (hres : unparseableResult res = true) :
    processEntry rid (mkResultResponse rid res) =
      .ok (some (errResult "无法解析MCP响应")) := by
  cases res with
  | obj kvs =>
    rcases hcon : objLookup kvs "content" with _ | con
    · have hany : (kvs.any (fun kv => kv.1 == "content")) = false := by
        rw [objLookup_any, hcon]; rfl
      simp [processEntry, mkResultResponse, pyGetD, objLookup, isStrEq, handleMatch,
            pyContainsKey, checkContent, hany]
    · have hany : (kvs.any (fun kv => kv.1 == "content")) = true := by
        rw [objLookup_any, hcon]; rfl
      simp only [unparseableResult, hcon] at hres
      cases con with
      | arr xs =>
        cases xs with
        | nil =>
          simp [processEntry, mkResultResponse, pyGetD, objLookup, isStrEq, handleMatch,
                pyContainsKey, checkContent, pyIndexKey, pyLen, hany, hcon]
        | cons item tail =>
          cases item with
          | obj ikvs =>
            have hty : isStrEq ((objLookup ikvs "type").getD .null) "text" = false := by
              simpa using hres
            have hlen : decide (0 < tail.length + 1) = true := by simp
            have hid : isStrEq (Json.str rid) rid = true := by simp [isStrEq]
            simp [processEntry, mkResultResponse, pyGetD, objLookup, handleMatch,
                  pyContainsKey, checkContent, decodeContent, pyIndexKey, pyIndexNat,
                  pyLen, List.get?, hany, hcon, hlen, hty, hid]
          | null => simp at hres
          | bool b => simp at hres
          | num n => simp at hres
          | str s => simp at hres
          | arr ys => simp at hres
      | null => simp at hres
      | bool b => simp at hres
      | num n => simp at hres
      | str s => simp at hres
      | obj okvs => simp at hres
  | null => simp [unparseableResult] at hres
  | bool b => simp [unparseableResult] at hres
  | num n => simp [unparseableResult] at hres
  | str s => simp [unparseableResult] at hres
  | arr xs => simp [unparseableResult] at hres

/-- C1: a gateway call whose matching response arrives within the
30-unit timeout and carries a `result` whose `content[0]` has type
`"text"` with a `text` field decoding to a JSON value returns exactly
that decoded value, unchanged (earlier entries may be non-matching). -/
theorem C1_gateway_roundtrip (url tn ep rid body s : String) (args v : Json)
    (pre rest : List Json)
    (hpre : ∀ e ∈ pre, nonMatchingObj rid e = true)
    (hs : Json.parse s = some v) :
    call_tool url tn args (some ep) rid (.resp 200 body)
      (pre ++ mkToolResponse rid s :: rest) = v := by
  simp [call_tool, call_tool_full, pollLoop_toolResponse hs pre rest hpre]

/-- C1 witness: the spec's own round-trip example, evaluated. -/
theorem C1_gateway_roundtrip_witness :
    Json.parse "\x7b\"success\":true,\"city\":\"Beijing\"\x7d" =
        some (.obj [("success", .bool true), ("city", .str "Beijing")]) ∧
      call_tool "http://localhost:8001" "query_current_weather"
        (.obj [("city", .str "Beijing")]) (some "/messages/?session_id=abc") "rid-1"
        (.resp 200 "")
        ([] ++ mkToolResponse "rid-1" "\x7b\"success\":true,\"city\":\"Beijing\"\x7d" :: []) =
        .obj [("success", .bool true), ("city", .str "Beijing")] :=
  ⟨rfl, C1_gateway_roundtrip "http://localhost:8001" "query_current_weather"
    "/messages/?session_id=abc" "rid-1" "" "\x7b\"success\":true,\"city\":\"Beijing\"\x7d"
    (.obj [("city", .str "Beijing")])
    (.obj [("success", .bool true), ("city", .str "Beijing")])
    [] [] (by decide) rfl⟩

/-- C2 counterexample: the claim says the public operations never raise,
but when the matching response's decoded inner payload is not a JSON
object (here the text `42`), `query_current_weather`'s logging check
`result.get("success")` raises AttributeError, which escapes to the
caller. -/
theorem C2_never_raises_cex :
    query_current_weather "http://localhost:8001" (some "/messages/?session_id=abc")
      "rid-1" "北京" (.resp 200 "") [mkToolResponse "rid-1" "42"] =
      .error .attributeError := rfl

/-- C2 (amended): whenever the gateway's result value is a mapping —
which holds on every failure path and on every object-decoding success —
both wrappers return it unchanged and raise nothing. -/
theorem C2_wrappers_return_without_fault (url : String) (ep : Option String)
    (rid city : String) (post : PostOutcome) (queue : List Json)
    (hc : (call_tool url "query_current_weather" (.obj [("city", .str city)])
        ep rid post queue).isObj = true)
    (hf : (call_tool url "query_weather_forecast" (.obj [("city", .str city)])
        ep rid post queue).isObj = true) :
    query_current_weather url ep rid city post queue =
        .ok (call_tool url "query_current_weather" (.obj [("city", .str city)])
          ep rid post queue) ∧
      query_weather_forecast url ep rid city post queue =
        .ok (call_tool url "query_weather_forecast" (.obj [("city", .str city)])
          ep rid post queue) :=
  ⟨wrapCurrent_ok hc, wrapForecast_ok hf⟩

/-- C2 witness: with no known endpoint the gateway result is the
failure mapping, and the wrapper returns it without raising. -/
theorem C2_wrappers_return_without_fault_witness :
    query_current_weather "http://localhost:8001" none "rid-1" "北京"
        (.resp 200 "") [] =
      .ok (call_tool "http://localhost:8001" "query_current_weather"
        (.obj [("city", .str "北京")]) none "rid-1" (.resp 200 "") []) :=
  (C2_wrappers_return_without_fault "http://localhost:8001" none "rid-1" "北京"
    (.resp 200 "") [] rfl rfl).1

/-- C3 counterexample: the claim says the endpoint is set at most once,
by the first `endpoint` frame; but a stream carrying two endpoint events
with payloads `/a` then `/b` leaves the endpoint at `/b`, not `/a` —
later endpoint events do overwrite it. -/
theorem C3_endpoint_set_once_cex :
    (runListener [("event: endpoint").toList, ("data: /a").toList,
        ("event: endpoint").toList, ("data: /b").toList]).endpoint = some "/b" ∧
      ("/b" : String) ≠ "/a" := ⟨rfl, by decide⟩

/-- C3 (amended): the session's message endpoint tracks the most recent
`endpoint`-event frame: after any delivered line sequence it equals the
payload of the LAST endpoint event, and stays unset when there is none
(so with exactly one endpoint event it does equal that first payload). -/
theorem C3_endpoint_last_event_wins (lines : List (List Char)) :
    (runListener lines).endpoint = lastEndpointPayload none lines := by
  have h := runListenerFrom_endpoint lines none none []
  cases hl : lastEndpointPayload none lines with
  | none => rw [hl] at h; exact h
  | some p => rw [hl] at h; exact h

/-- C4: two sequential, non-overlapping gateway calls with distinct
identifiers, each of whose responses is enqueued only after that call
starts polling, each return their own decoded response; the first call's
skipped non-matching entries are consumed and not requeued (its leftover
queue is empty here since its response arrived last). -/
theorem C4_sequential_calls_isolated (url tn1 tn2 ep rid1 rid2 b1 b2 s1 s2 : String)
    (a1 a2 v1 v2 : Json) (pre1 pre2 rest2 : List Json)
    (_hne : rid1 ≠ rid2)
    (h1 : ∀ e ∈ pre1, nonMatchingObj rid1 e = true)
    (h2 : ∀ e ∈ pre2, nonMatchingObj rid2 e = true)
    (hs1 : Json.parse s1 = some v1) (hs2 : Json.parse s2 = some v2) :
    (call_tool_full url tn1 a1 (some ep) rid1 (.resp 200 b1)
        (pre1 ++ mkToolResponse rid1 s1 :: [])).result = v1 ∧
      (call_tool_full url tn1 a1 (some ep) rid1 (.resp 200 b1)
        (pre1 ++ mkToolResponse rid1 s1 :: [])).leftover = [] ∧
      (call_tool_full url tn2 a2 (some ep) rid2 (.resp 200 b2)
        ((call_tool_full url tn1 a1 (some ep) rid1 (.resp 200 b1)
            (pre1 ++ mkToolResponse rid1 s1 :: [])).leftover ++
          (pre2 ++ mkToolResponse rid2 s2 :: rest2))).result = v2 := by
  have e1 : pollLoop rid1 (pre1 ++ mkToolResponse rid1 s1 :: []) = (v1, []) :=
    pollLoop_toolResponse hs1 pre1 [] h1
  have e2 : pollLoop rid2 (pre2 ++ mkToolResponse rid2 s2 :: rest2) = (v2, rest2) :=
    pollLoop_toolResponse hs2 pre2 rest2 h2
  refine ⟨?_, ?_, ?_⟩ <;> simp [call_tool_full, e1, e2]

/-- C4 witness: two concrete sequential calls with identifiers `a`/`b`
and payloads `1`/`2`, evaluated end to end. -/
theorem C4_sequential_calls_isolated_witness :
    (call_tool_full "u" "t1" (.obj []) (some "/m") "a" (.resp 200 "")
        ([] ++ mkToolResponse "a" "1" :: [])).result = .num 1 ∧
      (call_tool_full "u" "t1" (.obj []) (some "/m") "a" (.resp 200 "")
        ([] ++ mkToolResponse "a" "1" :: [])).leftover = [] ∧
      (call_tool_full "u" "t2" (.obj []) (some "/m") "b" (.resp 200 "")
        ((call_tool_full "u" "t1" (.obj []) (some "/m") "a" (.resp 200 "")
            ([] ++ mkToolResponse "a" "1" :: [])).leftover ++
          ([] ++ mkToolResponse "b" "2" :: []))).result = .num 2 :=
  C4_sequential_calls_isolated "u" "t1" "t2" "/m" "a" "b" "" "" "1" "2"
    (.obj []) (.obj []) (.num 1) (.num 2) [] [] []
    (by decide) (by decide) (by decide) rfl rfl

/-- C5: a gateway call issued while the message endpoint is unknown
returns the connection-not-established failure immediately: nothing is
posted (`request = none`) and the queue is untouched. -/
theorem C5_no_endpoint_fails_fast (url tn rid : String) (args : Json)
    (post : PostOutcome) (queue : List Json) :
    call_tool_full url tn args none rid post queue =
      ⟨errResult "MCP 连接未建立", none, queue⟩ := rfl

/-- C6: a POST answered with any status other than 200/202 makes the
call fail with the server status and body in the error, with the queue
left untouched — the correlation table is never polled. -/
theorem C6_http_error_no_poll (url tn ep rid body : String) (args : Json)
    (status : Nat) (queue : List Json) (h200 : status ≠ 200) (h202 : status ≠ 202) :
    call_tool_full url tn args (some ep) rid (.resp status body) queue =
      ⟨errResult ("MCP服务器返回错误: " ++ Nat.repr status ++ " - " ++ body),
        some (mkMcpRequest rid tn args), queue⟩ := by
  have hcond : (status != 200 && status != 202) = true := by
    simp [h200, h202]
  simp [call_tool_full, hcond]

/-- C6 witness: an HTTP 500 with a non-empty queue left untouched. -/
theorem C6_http_error_no_poll_witness :
    call_tool_full "http://localhost:8001" "query_current_weather" (.obj [])
        (some "/messages/?session_id=abc") "rid-1" (.resp 500 "Internal Server Error")
        [mkToolResponse "rid-1" "1"] =
      ⟨errResult ("MCP服务器返回错误: " ++ Nat.repr 500 ++ " - " ++ "Internal Server Error"),
        some (mkMcpRequest "rid-1" "query_current_weather" (.obj [])),
        [mkToolResponse "rid-1" "1"]⟩ :=
  C6_http_error_no_poll "http://localhost:8001" "query_current_weather"
    "/messages/?session_id=abc" "rid-1" "Internal Server Error" (.obj []) 500
    [mkToolResponse "rid-1" "1"] (by decide) (by decide)

/-- C7 counterexample: the claim says every call that dequeues no
matching entry within the timeout returns the response-timed-out error;
but a dequeued non-object entry (valid JSON `42`, which the listener
does enqueue) makes `entry.get("id")` raise, so the call returns the
catch-all failure, not the timed-out error. -/
theorem C7_response_timeout_cex :
    errorField (call_tool "http://localhost:8001" "query_current_weather" (.obj [])
        (some "/messages/?session_id=abc") "rid-1" (.resp 200 "") [.num 42]) =
      some (.str "MCP调用失败: AttributeError") ∧
      ("MCP调用失败: AttributeError" : String) ≠ "等待MCP响应超时" := ⟨rfl, by decide⟩

/-- C7 (amended): when every entry dequeued within the budget is a JSON
object none of which carries the call's identifier, the call returns the
response-timed-out failure (consuming the whole queue). -/
theorem C7_timeout_when_entries_are_objects (url tn ep rid body : String) (args : Json)
    (queue : List Json) (h : ∀ e ∈ queue, nonMatchingObj rid e = true) :
    call_tool_full url tn args (some ep) rid (.resp 200 body) queue =
      ⟨errResult "等待MCP响应超时", some (mkMcpRequest rid tn args), []⟩ := by
  have hp : pollLoop rid queue = (errResult "等待MCP响应超时", []) := by
    have h2 := pollLoop_skip h ([] : List Json)
    rw [List.append_nil] at h2
    rw [h2]; rfl
  simp [call_tool_full, hp]

/-- C7 witness: one non-matching object entry, then timeout. -/
theorem C7_timeout_when_entries_are_objects_witness :
    call_tool_full "http://localhost:8001" "query_current_weather" (.obj [])
        (some "/messages/?session_id=abc") "me" (.resp 200 "")
        [.obj [("id", .str "other")]] =
      ⟨errResult "等待MCP响应超时",
        some (mkMcpRequest "me" "query_current_weather" (.obj [])), []⟩ :=
  C7_timeout_when_entries_are_objects "http://localhost:8001" "query_current_weather"
    "/messages/?session_id=abc" "me" "" (.obj []) [.obj [("id", .str "other")]]
    (by decide)

/-- C8: a `data:` payload under a `message` event that does not parse as
JSON leaves the listener state unchanged apart from clearing the pending
event — nothing is raised, nothing is enqueued; consequently every
queued entry is the successful parse of some payload. -/
theorem C8_malformed_message_dropped :
    (∀ (st : ListenerState) (payload : List Char),
        st.currentEvent = some messageName →
        Json.parseChars payload = none →
        processLine st (dataHdr ++ payload) = { st with currentEvent := none }) ∧
      (∀ (lines : List (List Char)), ∀ j ∈ (runListener lines).queue,
        ∃ cs, Json.parseChars cs = some j) := by
  constructor
  · intro st payload hst hp
    obtain ⟨cur, ep, q⟩ := st
    replace hst : cur = some messageName := hst
    subst hst
    simp [processLine, dataHdr, eventHdr, leadsWith, hp, msg_ne_end]
  · intro lines j hj
    exact runListenerFrom_queue_parsed lines initListener (by simp [initListener]) j hj

/-- C8 witness: the payload `@@` under a `message` event is dropped. -/
theorem C8_malformed_message_dropped_witness :
    processLine ⟨some messageName, none, []⟩ (dataHdr ++ ['@', '@']) =
      { currentEvent := none, endpoint := none, queue := [] } :=
  C8_malformed_message_dropped.1 ⟨some messageName, none, []⟩ ['@', '@'] rfl rfl

/-- C9: a matching response whose result mapping has no `content` key,
an empty `content` list, or a first content item that is a mapping whose
`type` is not `"text"`, makes the gateway return the unable-to-parse
failure — no out-of-bounds or missing-key fault is raised (the index is
guarded by the length check). -/
theorem C9_unparseable_envelope (url tn ep rid body : String) (args res : Json)
    (pre rest : List Json)
    (hpre : ∀ e ∈ pre, nonMatchingObj rid e = true)
    (hres : unparseableResult res = true) :
    call_tool url tn args (some ep) rid (.resp 200 body)
      (pre ++ mkResultResponse rid res :: rest) = errResult "无法解析MCP响应" := by
  have hp : pollLoop rid (pre ++ mkResultResponse rid res :: rest) =
      (errResult "无法解析MCP响应", rest) := by
    rw [pollLoop_skip hpre]
    simp [pollLoop, processEntry_unparseable hres]
  simp [call_tool, call_tool_full, hp]

/-- C9 witness: a matching response whose result has no `content` key. -/
theorem C9_unparseable_envelope_witness :
    call_tool "http://localhost:8001" "query_current_weather" (.obj [])
        (some "/messages/?session_id=abc") "rid-1" (.resp 200 "")
        ([] ++ mkResultResponse "rid-1" (.obj []) :: []) =
      errResult "无法解析MCP响应" :=
  C9_unparseable_envelope "http://localhost:8001" "query_current_weather"
    "/messages/?session_id=abc" "rid-1" "" (.obj []) (.obj []) [] []
    (by decide) rfl

/-- C10: `get_mcp_client` is idempotent within a process: once the
global holds a client, every call returns that same instance unchanged,
whatever its arguments; and the second call after a first construction
returns exactly the instance the first call created. -/
theorem C10_singleton_accessor (c : MCPWeatherClient) (url url1 url2 : String)
    (ls ls1 ls2 : List (List Char)) (p p1 p2 : PostOutcome) :
    get_mcp_client (some c) url ls p = (c, some c) ∧
      get_mcp_client ((get_mcp_client none url1 ls1 p1).2) url2 ls2 p2 =
        ((get_mcp_client none url1 ls1 p1).1, (get_mcp_client none url1 ls1 p1).2) :=
  ⟨rfl, rfl⟩
